import Mathlib

/-!
# Verification of the DLNA/UPnP renderer sout module (`modules/stream_out/dlna/dlna.cpp`)

Shallow embedding of the module's state and operations.  The mutable
`sout_stream_sys_t` object becomes an explicit `SysState` record; each C++
member function becomes a Lean function from the state (plus an `Env` record
holding the results of the external collaborators: `sout_StreamChainNew`,
`sout_StreamIdAdd`, the performance-warning dialog, `vlc_tick_now`,
`vlc_mrand48`, the local-IP lookup, `asprintf`, and the three renderer control
actions) to the new state, the returned status, and a trace of the externally
visible calls the code performs.  Machine integers are modelled as `Nat`
(the fourcc codes fit in 32 bits; nothing in this module overflows), and the
C `int` status codes as `Int`.
-/

namespace DLNA

/-- `VLC_SUCCESS` (0).  Only the facts that it is zero and distinct from the
error codes below matter to this module. -/
def VLC_SUCCESS : Int := 0

/-- `VLC_EGENERIC` (nonzero error code). -/
def VLC_EGENERIC : Int := -1

/-- `VLC_ENOMEM` (nonzero error code). -/
def VLC_ENOMEM : Int := -2

/-- The C++ implicit conversion from `bool` to `int` (`return false;` inside
`int UpdateOutput` returns the integer 0). -/
def boolToCInt (b : Bool) : Int := if b then 1 else 0

/-- `VLC_FOURCC(a,b,c,d)`: little-endian packing of four bytes. -/
def vlcFourcc (a b c d : Char) : Nat :=
  a.toNat + 256 * b.toNat + 65536 * c.toNat + 16777216 * d.toNat

/-- `VLC_CODEC_MP4A` (`VLC_FOURCC('m','p','4','a')`). -/
def VLC_CODEC_MP4A : Nat := vlcFourcc 'm' 'p' '4' 'a'

/-- `VLC_CODEC_H264` (`VLC_FOURCC('h','2','6','4')`). -/
def VLC_CODEC_H264 : Nat := vlcFourcc 'h' '2' '6' '4'

/-- `vlc_fourcc_to_char`: the four bytes of a fourcc as characters. -/
def fourccToString (n : Nat) : String :=
  ⟨[Char.ofNat (n % 256), Char.ofNat (n / 256 % 256),
    Char.ofNat (n / 65536 % 256), Char.ofNat (n / 16777216 % 256)]⟩

/-!
## Decimal printing

`operator<<` on an `ostringstream` prints unsigned integers in decimal.  We
model it with an explicitly fuelled digit printer (the fuel argument makes the
definition structurally recursive, hence kernel-reducible on concrete input).
-/

/-- One iteration per fuel unit: emit `n % 10` and continue with `n / 10`
until the quotient is zero.  Digits accumulate most-significant-first. -/
def decDigitsGo : Nat → Nat → List Char → List Char
  | 0, _, acc => acc
  | fuel+1, n, acc =>
    let d := Char.ofNat (48 + n % 10)
    if n / 10 = 0 then d :: acc else decDigitsGo fuel (n / 10) (d :: acc)

/-- Decimal digit string of `n`, as a list of characters.  `n + 1` units of
fuel always suffice because the argument strictly shrinks at each step. -/
def decDigits (n : Nat) : List Char := decDigitsGo (n + 1) n []

/-- Decimal rendering of `n` as a `String`. -/
def decStr (n : Nat) : String := ⟨decDigits n⟩

/-- Numeric value of a decimal digit character (verification helper: a left
inverse used to prove `decDigits` injective). -/
def charVal (c : Char) : Nat := c.toNat - 48

/-- Value of a most-significant-first decimal digit string (verification
helper). -/
def valOf (l : List Char) : Nat := l.foldl (fun x c => 10 * x + charVal c) 0

/-!
## Capability classifier (`sout_stream_sys_t::canDecodeAudio` / `canDecodeVideo`)
-/

/-- `canDecodeAudio`: true exactly for `VLC_CODEC_MP4A`. -/
def canDecodeAudio (i_codec : Nat) : Bool := i_codec == VLC_CODEC_MP4A

/-- `canDecodeVideo`: true exactly for `VLC_CODEC_H264`. -/
def canDecodeVideo (i_codec : Nat) : Bool := i_codec == VLC_CODEC_H264

/-!
## Data model

`sout_stream_id_sys_t` records live in `sout_stream_sys_t::streams`; the
`out_streams` vector holds pointers into the same records, modelled as the
records' handles.  The `p_sub_id` field (the sink inside the current chain)
is `Option Nat`.
-/

/-- `es_format_t::i_cat` values used by the module. -/
inductive ESCat where
  | audio
  | video
  | other
deriving DecidableEq, Repr

/-- The part of `es_format_t` the module reads: category and fourcc codec. -/
structure ESFormat where
  i_cat : ESCat
  i_codec : Nat
deriving DecidableEq, Repr

/-- One `sout_stream_id_sys_t` record, identified by its pointer `handle`. -/
structure TrackRec where
  handle : Nat
  fmt : ESFormat
  sub_id : Option Nat
deriving DecidableEq, Repr

/-- The mutable fields of `sout_stream_sys_t`. -/
structure SysState where
  p_out : Option Nat
  es_changed : Bool
  b_supports_video : Bool
  perf_warning_shown : Bool
  http_port : Nat
  streams : List TrackRec
  out_streams : List Nat
deriving DecidableEq, Repr

/-- Externally visible calls made by the module, recorded as a trace.  The
renderer control actions carry the outcome the environment reports for them
(the code discards those outcomes; the trace keeps them so that statements
about failed actions can be made). -/
inductive Action where
  | chainNew (desc : String)
  | chainDelete
  | streamIdAdd (handle : Nat)
  | streamIdDel (sink : Option Nat)
  | streamFlush (sink : Nat)
  | formatClean (handle : Nat)
  | dialogShown
  | configPutSkipWarning
  | rendererStop (ok : Bool)
  | rendererSetURI (uri : String) (ok : Bool)
  | rendererPlay (speed : String) (ok : Bool)
deriving DecidableEq, Repr

/-- Results supplied by the external collaborators during one
`UpdateOutput` run: `sout_StreamChainNew`, `sout_StreamIdAdd` (per track
handle), the `show-perf-warning` config variable, the dialog answer,
whether `vlc_sout_renderer_GetVcodecOption` throws and the option string it
returns, `vlc_tick_now`, `vlc_mrand48`, the local IP, whether `asprintf`
succeeds, and the outcomes of the three renderer control actions. -/
structure Env where
  chainNew : Option Nat
  idAdd : Nat → Option Nat
  showPerfWarning : Bool
  dialogResult : Int
  vcodecThrows : Bool
  vcodecOption : String
  tick : Nat
  rand : Nat
  ip : Option String
  asprintfOk : Bool
  stopOk : Bool
  setUriOk : Bool
  playOk : Bool

/-- Replace the `sub_id` field of the record with the given handle. -/
def setSubId (l : List TrackRec) (h : Nat) (v : Option Nat) : List TrackRec :=
  l.map fun r => if r.handle == h then { r with sub_id := v } else r

/-!
## `stopSoutChain`
-/

/-- The loop of `stopSoutChain`: for every bound handle, call
`sout_StreamIdDel` on its sink and clear the record's `p_sub_id`. -/
def stopChainLoop : List Nat → List TrackRec → List TrackRec × List Action
  | [], st => (st, [])
  | h :: rest, st =>
    let sink := (st.find? (fun r => r.handle == h)).bind (·.sub_id)
    let r := stopChainLoop rest (setSubId st h none)
    (r.1, Action.streamIdDel sink :: r.2)

/-- `sout_stream_sys_t::stopSoutChain`: delete every bound sink, clear the
bindings, clear `out_streams`, delete the chain, null `p_out`. -/
def stopSoutChain (s : SysState) : SysState × List Action :=
  let r := stopChainLoop s.out_streams s.streams
  ({ s with streams := r.1, out_streams := [], p_out := none },
   r.2 ++ [Action.chainDelete])

/-!
## `startSoutChain`
-/

/-- The filter loop of `startSoutChain`: call `sout_StreamIdAdd` for each
stream in `out_streams`; a stream the chain rejects has its format cleaned
and is erased from `out_streams`, others record their new sink. -/
def chainAddLoop (env : Env) : List Nat → List TrackRec → List TrackRec × List Nat × List Action
  | [], st => (st, [], [])
  | h :: rest, st =>
    match env.idAdd h with
    | some sink =>
      let r := chainAddLoop env rest (setSubId st h (some sink))
      (r.1, h :: r.2.1, Action.streamIdAdd h :: r.2.2)
    | none =>
      let r := chainAddLoop env rest (setSubId st h none)
      (r.1, r.2.1, Action.streamIdAdd h :: Action.formatClean h :: r.2.2)

/-- `sout_stream_sys_t::startSoutChain`.  Note that the source assigns
`out_streams = new_streams` and `p_out = sout_StreamChainNew(...)` before
checking the result, so a failure clobbers both fields (the previous chain
handle is overwritten without being deleted). -/
def startSoutChain (s : SysState) (env : Env) (new_streams : List Nat)
    (sout : String) : SysState × Bool × List Action :=
  let s1 := { s with out_streams := new_streams }
  match env.chainNew with
  | none =>
    ({ s1 with p_out := none, out_streams := [] }, false, [Action.chainNew sout])
  | some chain =>
    let s2 := { s1 with p_out := some chain }
    let r := chainAddLoop env s2.out_streams s2.streams
    let s3 := { s2 with streams := r.1, out_streams := r.2.1 }
    if s3.out_streams.isEmpty then
      let r2 := stopSoutChain s3
      (r2.1, false, Action.chainNew sout :: r.2.2 ++ r2.2)
    else
      (s3, true, Action.chainNew sout :: r.2.2)

/-!
## `UpdateOutput`
-/

/-- The loop-carried variables of the classification loop in
`UpdateOutput`: `canRemux`, the first decodable codec per category
(`0` = none seen yet), the last non-remuxable format per category, and the
accumulated `new_streams` vector. -/
structure Classified where
  canRemux : Bool
  i_codec_audio : Nat
  i_codec_video : Nat
  orig_audio : Option ESFormat
  orig_video : Option ESFormat
  new_streams : List Nat
deriving Repr

/-- One iteration of the classification loop over `streams`. -/
def classifyStep (supports_video : Bool) (c : Classified) (r : TrackRec) : Classified :=
  if r.fmt.i_cat = ESCat.audio then
    let c1 :=
      if !canDecodeAudio r.fmt.i_codec then
        { c with orig_audio := some r.fmt, canRemux := false }
      else if c.i_codec_audio = 0 then
        { c with i_codec_audio := r.fmt.i_codec }
      else c
    { c1 with new_streams := c1.new_streams ++ [r.handle] }
  else if supports_video ∧ r.fmt.i_cat = ESCat.video then
    let c1 :=
      if !canDecodeVideo r.fmt.i_codec then
        { c with orig_video := some r.fmt, canRemux := false }
      else if c.i_codec_video = 0 then
        { c with i_codec_video := r.fmt.i_codec }
      else c
    { c1 with new_streams := c1.new_streams ++ [r.handle] }
  else c

/-- The classification loop of `UpdateOutput`. -/
def classify (supports_video : Bool) (streams : List TrackRec) : Classified :=
  streams.foldl (classifyStep supports_video)
    ⟨true, 0, 0, none, none, []⟩

/-- `GetAcodecOption`, called with the fixed target codec `mp4a`. -/
def acodecOption (codec : Nat) : String :=
  "acodec=" ++ fourccToString codec ++ "," ++ "aenc=avcodec\x7bcodec=aac\x7d,"

/-- The body of the `if (!canRemux)` branch after the dialog: build the
`transcode\x7b...\x7d:` prefix.  `vlc_sout_renderer_GetVcodecOption` may
throw, in which case `UpdateOutput` returns `VLC_EGENERIC`; the `Sum.inl`
alternative carries such an early return. -/
def transcodeDesc (s1 : SysState) (env : Env) (c : Classified)
    (tr : List Action) :
    (SysState × Int × List Action) ⊕ (SysState × String × List Action) :=
  let audioPart :=
    if c.i_codec_audio = 0 ∧ c.orig_audio.isSome then acodecOption VLC_CODEC_MP4A
    else ""
  if c.i_codec_video = 0 ∧ c.orig_video.isSome then
    if env.vcodecThrows then Sum.inl (s1, VLC_EGENERIC, tr)
    else Sum.inr (s1, "transcode\x7b" ++ audioPart ++ env.vcodecOption ++ "\x7d:", tr)
  else Sum.inr (s1, "transcode\x7b" ++ audioPart ++ "\x7d:", tr)

/-- The `if (!canRemux)` branch of `UpdateOutput`, including the one-time
performance-warning dialog.  On cancel (`res <= 0`) the source executes
`return false;` inside a function returning `int`: the value returned is the
integer conversion of `false`. -/
def transcodeStage (s0 : SysState) (env : Env) (c : Classified) :
    (SysState × Int × List Action) ⊕ (SysState × String × List Action) :=
  if c.canRemux then Sum.inr (s0, "", [])
  else
    if !s0.perf_warning_shown ∧ c.i_codec_video = 0 ∧ c.orig_video.isSome
        ∧ env.showPerfWarning then
      if env.dialogResult ≤ 0 then
        Sum.inl (s0, boolToCInt false, [Action.dialogShown])
      else
        let s1 := { s0 with perf_warning_shown := true }
        let tr :=
          if env.dialogResult = 2 then
            [Action.dialogShown, Action.configPutSkipWarning]
          else [Action.dialogShown]
        transcodeDesc s1 env c tr
    else transcodeDesc s0 env c []

/-- The HTTP resource path:
`"/dlna" << "/" << vlc_tick_now() << "/" << vlc_mrand48() << "/stream"`. -/
def root_url (tick rand : Nat) : String :=
  "/dlna" ++ "/" ++ decStr tick ++ "/" ++ decStr rand ++ "/stream"

/-- `sout_stream_sys_t::UpdateOutput`.  Returns the new state, the `int`
status, and the trace of external calls. -/
def UpdateOutput (s : SysState) (env : Env) : SysState × Int × List Action :=
  if s.es_changed = false then (s, VLC_SUCCESS, [])
  else
    let s0 : SysState := { s with es_changed := false }
    let c := classify s0.b_supports_video s0.streams
    if c.new_streams.isEmpty then (s0, VLC_SUCCESS, [])
    else
      match transcodeStage s0 env c with
      | Sum.inl early => early
      | Sum.inr (s1, pre, tr1) =>
        let root := root_url env.tick env.rand
        let ssout := pre ++ "http\x7bdst=:" ++ decStr s1.http_port ++ root
          ++ ",mux=mp4stream,access=http\x7bmime=video/mp4\x7d\x7d"
        match env.ip with
        | none => (s1, VLC_EGENERIC, tr1)
        | some ip =>
          if env.asprintfOk = false then (s1, VLC_ENOMEM, tr1)
          else
            let uri := "http://" ++ ip ++ ":" ++ decStr s1.http_port ++ root
            let r2 := startSoutChain s1 env c.new_streams ssout
            if r2.2.1 = false then (r2.1, VLC_EGENERIC, tr1 ++ r2.2.2)
            else
              (r2.1, VLC_SUCCESS,
               tr1 ++ r2.2.2 ++
                 [Action.rendererStop env.stopOk,
                  Action.rendererSetURI uri env.setUriOk,
                  Action.rendererPlay "1" env.playOk])

/-!
## `GetSubId`, `Flush`, `Del`
-/

/-- The lookup performed by `GetSubId` when called with `update = false`
(as `Flush` does): scan `out_streams` for the pointer and return the
record's `p_sub_id` (null when the stream is not in `out_streams`). -/
def lookupSub (s : SysState) (id : Nat) : Option Nat :=
  if s.out_streams.contains id then
    (s.streams.find? (fun r => r.handle == id)).bind (·.sub_id)
  else none

/-- `Flush`: resolve the sink via `GetSubId(..., false)`; when the track is
not bound, return immediately; otherwise flush the sink, tear down the
whole chain and set the dirty flag. -/
def Flush (s : SysState) (id : Nat) : SysState × List Action :=
  match lookupSub s id with
  | none => (s, [])
  | some sink =>
    let r := stopSoutChain s
    ({ r.1 with es_changed := true }, Action.streamFlush sink :: r.2)

/-- Erase the first occurrence of a handle from `out_streams`. -/
def removeFirstHandle : List Nat → Nat → List Nat
  | [], _ => []
  | x :: xs, v => if x == v then xs else x :: removeFirstHandle xs v

/-- Erase the first record with the given handle from `streams`. -/
def removeFirstRec : List TrackRec → Nat → List TrackRec
  | [], _ => []
  | r :: rs, v => if r.handle == v then rs else r :: removeFirstRec rs v

/-- The final, unconditional check of `Del`: when `out_streams` is empty the
chain is torn down and `Stop` is sent to the renderer (its result is
discarded; `stopOk` records what the renderer reported). -/
def delFinal (s : SysState) (stopOk : Bool) (tr : List Action) :
    SysState × List Action :=
  if s.out_streams.isEmpty then
    let r := stopSoutChain s
    (r.1, tr ++ r.2 ++ [Action.rendererStop stopOk])
  else (s, tr)

/-- `Del`: find the record for the removed pointer; if it has a live sink,
delete that sink and erase the pointer from `out_streams`; release the
record; finally, if `out_streams` is empty, tear down the chain and stop the
renderer. -/
def Del (s : SysState) (stopOk : Bool) (id : Nat) : SysState × List Action :=
  match s.streams.find? (fun r => r.handle == id) with
  | none => delFinal s stopOk []
  | some r =>
    let step :=
      match r.sub_id with
      | some sink =>
        ({ s with out_streams := removeFirstHandle s.out_streams id },
         [Action.streamIdDel (some sink)])
      | none => (s, ([] : List Action))
    let s2 := { step.1 with streams := removeFirstRec step.1.streams id }
    delFinal s2 stopOk (step.2 ++ [Action.formatClean id])

/-!
## Renderer control client (`MediaRenderer::getServiceURL` / `SendAction`)
-/

/-- `needle` is a prefix of `hay` (character lists). -/
def startsWithL : List Char → List Char → Bool
  | _, [] => true
  | [], _ :: _ => false
  | a :: as, b :: bs => a == b && startsWithL as bs

/-- `strstr` semantics: `needle` occurs somewhere inside `hay`. -/
def containsSeq : List Char → List Char → Bool
  | hay, needle =>
    if startsWithL hay needle then true
    else
      match hay with
      | [] => false
      | _ :: t => containsSeq t needle

/-- One `<service>` entry of the device description: its `serviceType` child
element and the child element named by the requested field (`controlURL`),
either possibly absent. -/
structure UService where
  serviceType : Option String
  fieldValue : Option String
deriving DecidableEq, Repr

/-- One `<device>` entry with its `<service>` list. -/
structure UDevice where
  services : List UService
deriving DecidableEq, Repr

/-- Results of the UPnP transport collaborators during one `SendAction`:
whether `UpnpDownloadXmlDoc` succeeds, the parsed device list (`none` models
a null `getElementsByTagName` result), whether `malloc` and
`UpnpResolveURL` succeed and the URL the latter produces, the
`UpnpSendAction` return code and the response document it yields. -/
structure NetEnv where
  downloadOk : Bool
  deviceList : Option (List UDevice)
  mallocOk : Bool
  resolveOk : Bool
  resolvedURL : String
  dispatchRet : Int
  response : Option Nat

/-- Inner loop of `getServiceURL`: the first service whose `serviceType`
contains the requested type as a substring and which carries the requested
field ends the whole function (successfully when `malloc` and
`UpnpResolveURL` both succeed, with a null result otherwise); other services
are skipped.  `some r` means the function returns `r`; `none` means keep
scanning further devices. -/
def scanServices (env : NetEnv) (type : String) :
    List UService → Option (Option String)
  | [] => none
  | svc :: rest =>
    match svc.serviceType with
    | none => scanServices env type rest
    | some st =>
      if containsSeq st.data type.data then
        match svc.fieldValue with
        | none => scanServices env type rest
        | some _ =>
          some (if env.mallocOk && env.resolveOk then some env.resolvedURL else none)
      else scanServices env type rest

/-- Outer loop of `getServiceURL` over the device list. -/
def scanDevices (env : NetEnv) (type : String) : List UDevice → Option String
  | [] => none
  | d :: rest =>
    match scanServices env type d.services with
    | some r => r
    | none => scanDevices env type rest

/-- `MediaRenderer::getServiceURL`: fetch the device description, scan the
device/service entries, resolve the first matching service's field into an
absolute URL.  Null when the fetch fails, nothing matches, or resolution
fails. -/
def getServiceURL (env : NetEnv) (type : String) : Option String :=
  if !env.downloadOk then none
  else
    match env.deviceList with
    | none => none
    | some devices => scanDevices env type devices

/-- Externally visible calls of `SendAction`, traced. -/
inductive NetAct where
  | makeAction (name : String)
  | addToAction (argName argVal : String)
  | dispatch (controlURL : Option String)
  | freeActionDoc
  | freeURL
  | freeResponse
deriving DecidableEq, Repr

/-- `MediaRenderer::SendAction`: build the action document, add the
arguments, resolve the control URL, dispatch (unconditionally — also when
the resolved URL is null), free the action document and the URL string, and
on a non-success return code free any response document and return null. -/
def SendAction (env : NetEnv) (action_name service_type : String)
    (arguments : List (String × String)) : Option Nat × List NetAct :=
  let url := getServiceURL env service_type
  let tr := NetAct.makeAction action_name ::
    arguments.map (fun a => NetAct.addToAction a.1 a.2) ++
    [NetAct.dispatch url, NetAct.freeActionDoc, NetAct.freeURL]
  if env.dispatchRet ≠ 0 then
    (none, tr ++ (if env.response.isSome then [NetAct.freeResponse] else []))
  else
    (env.response, tr)

/-!
## Theorems

### Decimal digit strings
-/

theorem decDigitsGo_append (fuel : Nat) :
    ∀ n acc, decDigitsGo fuel n acc = decDigitsGo fuel n [] ++ acc := by
  induction fuel with
  | zero => intro n acc; rfl
  | succ fuel ih =>
    intro n acc
    simp only [decDigitsGo]
    by_cases h : n / 10 = 0
    · simp [h]
    · rw [if_neg h, if_neg h, ih (n / 10) (Char.ofNat (48 + n % 10) :: acc),
        ih (n / 10) [Char.ofNat (48 + n % 10)], List.append_assoc]
      rfl

theorem valOf_append_singleton (l : List Char) (c : Char) :
    valOf (l ++ [c]) = 10 * valOf l + charVal c := by
  simp [valOf, List.foldl_append]

theorem charVal_digit : ∀ d < 10, charVal (Char.ofNat (48 + d)) = d := by decide

theorem digit_in_range : ∀ d < 10,
    48 ≤ (Char.ofNat (48 + d)).toNat ∧ (Char.ofNat (48 + d)).toNat ≤ 57 := by decide

theorem valOf_decDigitsGo :
    ∀ fuel n, n < 10 ^ fuel → valOf (decDigitsGo fuel n []) = n := by
  intro fuel
  induction fuel with
  | zero =>
    intro n h
    have : n = 0 := by omega
    subst this; rfl
  | succ fuel ih =>
    intro n h
    simp only [decDigitsGo]
    by_cases h0 : n / 10 = 0
    · have hn : n < 10 := by omega
      rw [if_pos h0]
      have := charVal_digit (n % 10) (by omega)
      simp [valOf, this]
      omega
    · have hb : n / 10 < 10 ^ fuel := by
        rw [pow_succ] at h
        exact (Nat.div_lt_iff_lt_mul (by norm_num)).2 h
      rw [if_neg h0, decDigitsGo_append, valOf_append_singleton,
        ih (n / 10) hb, charVal_digit (n % 10) (by omega)]
      omega

theorem valOf_decDigits (n : Nat) : valOf (decDigits n) = n := by
  have h1 : n < 10 ^ n := Nat.lt_pow_self (by norm_num) n
  have h2 : (10:Nat) ^ n ≤ 10 ^ (n + 1) :=
    Nat.pow_le_pow_right (by norm_num) (Nat.le_succ n)
  exact valOf_decDigitsGo (n + 1) n (lt_of_lt_of_le h1 h2)

theorem decDigits_inj {a b : Nat} (h : decDigits a = decDigits b) : a = b := by
  have := congrArg valOf h
  rwa [valOf_decDigits, valOf_decDigits] at this

theorem decDigitsGo_digits :
    ∀ fuel n acc, (∀ c ∈ acc, 48 ≤ c.toNat ∧ c.toNat ≤ 57) →
      ∀ c ∈ decDigitsGo fuel n acc, 48 ≤ c.toNat ∧ c.toNat ≤ 57 := by
  intro fuel
  induction fuel with
  | zero => intro n acc hacc; exact hacc
  | succ fuel ih =>
    intro n acc hacc
    simp only [decDigitsGo]
    have hd := digit_in_range (n % 10) (by omega)
    by_cases h : n / 10 = 0
    · rw [if_pos h]
      intro c hc
      rcases List.mem_cons.1 hc with rfl | hc
      · exact hd
      · exact hacc c hc
    · rw [if_neg h]
      refine ih (n / 10) _ ?_
      intro c hc
      rcases List.mem_cons.1 hc with rfl | hc
      · exact hd
      · exact hacc c hc

theorem decDigits_ne_slash (n : Nat) : ∀ c ∈ decDigits n, c ≠ '/' := by
  intro c hc heq
  have := decDigitsGo_digits (n + 1) n [] (by intro c h; cases h) c hc
  subst heq
  revert this; decide

theorem splitSlash :
    ∀ (a1 a2 b1 b2 : List Char), (∀ c ∈ a1, c ≠ '/') → (∀ c ∈ a2, c ≠ '/') →
      a1 ++ '/' :: b1 = a2 ++ '/' :: b2 → a1 = a2 ∧ b1 = b2 := by
  intro a1
  induction a1 with
  | nil =>
    intro a2 b1 b2 _ h2 he
    cases a2 with
    | nil => simpa using he
    | cons y ys =>
      exfalso
      simp only [List.nil_append, List.cons_append, List.cons.injEq] at he
      exact h2 y (by simp) he.1.symm
  | cons x xs ih =>
    intro a2 b1 b2 h1 h2 he
    cases a2 with
    | nil =>
      exfalso
      simp only [List.nil_append, List.cons_append, List.cons.injEq] at he
      exact h1 x (by simp) he.1
    | cons y ys =>
      simp only [List.cons_append, List.cons.injEq] at he
      obtain ⟨hxy, htail⟩ := he
      obtain ⟨h3, h4⟩ := ih ys b1 b2 (fun c hc => h1 c (by simp [hc]))
        (fun c hc => h2 c (by simp [hc])) htail
      exact ⟨by rw [hxy, h3], h4⟩

theorem str_data_append (a b : String) : (a ++ b).data = a.data ++ b.data := by
  cases a; cases b; rfl

/-!
### C4 — capability classifier
-/

/-- C4: for every codec identifier `c`, `canDecodeAudio c` holds exactly when
`c` is `VLC_CODEC_MP4A` and `canDecodeVideo c` exactly when `c` is
`VLC_CODEC_H264`.  Both are Lean functions of their argument alone, hence
pure and stateless: the same input always yields the same result. -/
theorem c4_classifier (c : Nat) :
    (canDecodeAudio c = true ↔ c = VLC_CODEC_MP4A) ∧
    (canDecodeVideo c = true ↔ c = VLC_CODEC_H264) := by
  constructor <;> simp [canDecodeAudio, canDecodeVideo]

/-!
### C7 — resource path uniqueness
-/

/-- C7: the HTTP resource path `/dlna/<tick>/<rand>/stream` built by
`UpdateOutput` never repeats across rebuilds: two rebuilds observing
distinct monotonic timestamps produce distinct paths, whatever the two
random values are. -/
theorem c7_root_url_unique (t1 r1 t2 r2 : Nat) (h : t1 ≠ t2) :
    root_url t1 r1 ≠ root_url t2 r2 := by
  intro he
  apply h
  have hd := congrArg String.data he
  simp only [root_url, str_data_append, decStr] at hd
  simp only [List.append_assoc, List.cons_append, List.nil_append,
    List.cons.injEq, true_and] at hd
  have := splitSlash _ _ _ _
    (decDigits_ne_slash t1) (decDigits_ne_slash t2) hd
  exact decDigits_inj this.1

/-- Witness for C7 at concrete inputs. -/
theorem c7_witness : root_url 1 5 ≠ root_url 2 5 :=
  c7_root_url_unique 1 5 2 5 (by decide)

/-!
### Helper lemmas about the pipeline operations
-/

theorem stopSoutChain_es (s : SysState) :
    (stopSoutChain s).1.es_changed = s.es_changed := rfl

theorem stopChainLoop_trace :
    ∀ (l : List Nat) (st : List TrackRec) (a : Action),
      a ∈ (stopChainLoop l st).2 → ∃ k, a = Action.streamIdDel k := by
  intro l
  induction l with
  | nil => intro st a ha; cases ha
  | cons h rest ih =>
    intro st a ha
    simp only [stopChainLoop, List.mem_cons] at ha
    rcases ha with rfl | ha
    · exact ⟨_, rfl⟩
    · exact ih _ a ha

theorem stopSoutChain_trace {s : SysState} {a : Action}
    (ha : a ∈ (stopSoutChain s).2) :
    (∃ k, a = Action.streamIdDel k) ∨ a = Action.chainDelete := by
  simp only [stopSoutChain, List.mem_append, List.mem_singleton] at ha
  rcases ha with ha | rfl
  · exact Or.inl (stopChainLoop_trace _ _ a ha)
  · exact Or.inr rfl

theorem chainAddLoop_trace (env : Env) :
    ∀ (l : List Nat) (st : List TrackRec) (a : Action),
      a ∈ (chainAddLoop env l st).2.2 →
      (∃ h, a = Action.streamIdAdd h) ∨ (∃ h, a = Action.formatClean h) := by
  intro l
  induction l with
  | nil => intro st a ha; cases ha
  | cons h rest ih =>
    intro st a ha
    simp only [chainAddLoop] at ha
    cases henv : env.idAdd h with
    | some sink =>
      rw [henv] at ha
      simp only [List.mem_cons] at ha
      rcases ha with rfl | ha
      · exact Or.inl ⟨_, rfl⟩
      · exact ih _ a ha
    | none =>
      rw [henv] at ha
      simp only [List.mem_cons] at ha
      rcases ha with rfl | ha
      · exact Or.inl ⟨_, rfl⟩
      · rcases ha with rfl | ha
        · exact Or.inr ⟨_, rfl⟩
        · exact ih _ a ha

theorem startSoutChain_es (s : SysState) (env : Env) (ns : List Nat) (d : String) :
    (startSoutChain s env ns d).1.es_changed = s.es_changed := by
  unfold startSoutChain
  cases env.chainNew with
  | none => rfl
  | some chain =>
    dsimp only
    split
    · rfl
    · rfl

theorem startSoutChain_trace {s : SysState} {env : Env} {ns : List Nat}
    {d : String} {a : Action} (ha : a ∈ (startSoutChain s env ns d).2.2) :
    (∃ d2, a = Action.chainNew d2) ∨ (∃ h, a = Action.streamIdAdd h) ∨
    (∃ h, a = Action.formatClean h) ∨ (∃ k, a = Action.streamIdDel k) ∨
    a = Action.chainDelete := by
  unfold startSoutChain at ha
  cases henv : env.chainNew with
  | none =>
    rw [henv] at ha
    simp only [List.mem_singleton] at ha
    exact Or.inl ⟨_, ha⟩
  | some chain =>
    rw [henv] at ha
    dsimp only at ha
    split at ha
    · simp only [List.mem_cons, List.mem_append] at ha
      rcases ha with (rfl | ha) | ha
      · exact Or.inl ⟨_, rfl⟩
      · rcases chainAddLoop_trace env _ _ a ha with ⟨h, rfl⟩ | ⟨h, rfl⟩
        · exact Or.inr (Or.inl ⟨_, rfl⟩)
        · exact Or.inr (Or.inr (Or.inl ⟨_, rfl⟩))
      · rcases stopSoutChain_trace ha with ⟨k, rfl⟩ | rfl
        · exact Or.inr (Or.inr (Or.inr (Or.inl ⟨_, rfl⟩)))
        · exact Or.inr (Or.inr (Or.inr (Or.inr rfl)))
    · simp only [List.mem_cons] at ha
      rcases ha with rfl | ha
      · exact Or.inl ⟨_, rfl⟩
      · rcases chainAddLoop_trace env _ _ a ha with ⟨h, rfl⟩ | ⟨h, rfl⟩
        · exact Or.inr (Or.inl ⟨_, rfl⟩)
        · exact Or.inr (Or.inr (Or.inl ⟨_, rfl⟩))

theorem transcodeDesc_inl {s1 : SysState} {env : Env} {c : Classified}
    {tr : List Action} {x : SysState × Int × List Action}
    (h : transcodeDesc s1 env c tr = Sum.inl x) : x.1 = s1 ∧ x.2.2 = tr := by
  by_cases h1 : c.i_codec_video = 0 ∧ c.orig_video.isSome = true
  · by_cases h2 : env.vcodecThrows = true
    · simp only [transcodeDesc, h1, h2, if_true] at h
      injection h with hx
      subst hx
      exact ⟨rfl, rfl⟩
    · simp only [transcodeDesc, h1, h2, if_true, if_false] at h
      cases h
  · simp only [transcodeDesc, h1, if_false] at h
    cases h

theorem transcodeDesc_inr {s1 : SysState} {env : Env} {c : Classified}
    {tr : List Action} {y : SysState × String × List Action}
    (h : transcodeDesc s1 env c tr = Sum.inr y) : y.1 = s1 ∧ y.2.2 = tr := by
  by_cases h1 : c.i_codec_video = 0 ∧ c.orig_video.isSome = true
  · by_cases h2 : env.vcodecThrows = true
    · simp only [transcodeDesc, h1, h2, if_true] at h
      cases h
    · simp only [transcodeDesc, h1, h2, if_true, if_false] at h
      injection h with hx
      subst hx
      exact ⟨rfl, rfl⟩
  · simp only [transcodeDesc, h1, if_false] at h
    injection h with hx
    subst hx
    exact ⟨rfl, rfl⟩

theorem transcodeStage_inl {s0 : SysState} {env : Env} {c : Classified}
    {x : SysState × Int × List Action}
    (h : transcodeStage s0 env c = Sum.inl x) :
    x.1.es_changed = s0.es_changed ∧ x.1.p_out = s0.p_out ∧
    x.1.out_streams = s0.out_streams ∧ x.1.streams = s0.streams ∧
    (x.2.2 = [] ∨ x.2.2 = [Action.dialogShown] ∨
      x.2.2 = [Action.dialogShown, Action.configPutSkipWarning]) := by
  by_cases hc : c.canRemux = true
  · simp only [transcodeStage, hc, if_true] at h
    cases h
  · by_cases hw : (!s0.perf_warning_shown) = true ∧ c.i_codec_video = 0 ∧
        c.orig_video.isSome = true ∧ env.showPerfWarning = true
    · by_cases hd : env.dialogResult ≤ 0
      · simp only [transcodeStage, hc, hw, hd, if_true, if_false] at h
        injection h with hx
        subst hx
        exact ⟨rfl, rfl, rfl, rfl, Or.inr (Or.inl rfl)⟩
      · simp only [transcodeStage, hc, hw, hd, if_true, if_false] at h
        obtain ⟨hs, htr⟩ := transcodeDesc_inl h
        rw [hs, htr]
        refine ⟨rfl, rfl, rfl, rfl, ?_⟩
        by_cases h2 : env.dialogResult = 2
        · rw [if_pos h2]; exact Or.inr (Or.inr rfl)
        · rw [if_neg h2]; exact Or.inr (Or.inl rfl)
    · simp only [transcodeStage, hc, hw, if_false] at h
      obtain ⟨hs, htr⟩ := transcodeDesc_inl h
      rw [hs, htr]
      exact ⟨rfl, rfl, rfl, rfl, Or.inl rfl⟩

theorem transcodeStage_inr {s0 : SysState} {env : Env} {c : Classified}
    {y : SysState × String × List Action}
    (h : transcodeStage s0 env c = Sum.inr y) :
    y.1.es_changed = s0.es_changed ∧ y.1.p_out = s0.p_out ∧
    y.1.out_streams = s0.out_streams ∧ y.1.streams = s0.streams ∧
    y.1.http_port = s0.http_port ∧ y.1.b_supports_video = s0.b_supports_video ∧
    (y.2.2 = [] ∨ y.2.2 = [Action.dialogShown] ∨
      y.2.2 = [Action.dialogShown, Action.configPutSkipWarning]) := by
  by_cases hc : c.canRemux = true
  · simp only [transcodeStage, hc, if_true] at h
    injection h with hx
    subst hx
    exact ⟨rfl, rfl, rfl, rfl, rfl, rfl, Or.inl rfl⟩
  · by_cases hw : (!s0.perf_warning_shown) = true ∧ c.i_codec_video = 0 ∧
        c.orig_video.isSome = true ∧ env.showPerfWarning = true
    · by_cases hd : env.dialogResult ≤ 0
      · simp only [transcodeStage, hc, hw, hd, if_true, if_false] at h
        cases h
      · simp only [transcodeStage, hc, hw, hd, if_true, if_false] at h
        obtain ⟨hs, htr⟩ := transcodeDesc_inr h
        rw [hs, htr]
        refine ⟨rfl, rfl, rfl, rfl, rfl, rfl, ?_⟩
        by_cases h2 : env.dialogResult = 2
        · rw [if_pos h2]; exact Or.inr (Or.inr rfl)
        · rw [if_neg h2]; exact Or.inr (Or.inl rfl)
    · simp only [transcodeStage, hc, hw, if_false] at h
      obtain ⟨hs, htr⟩ := transcodeDesc_inr h
      rw [hs, htr]
      exact ⟨rfl, rfl, rfl, rfl, rfl, rfl, Or.inl rfl⟩

/-!
### C3 — the dirty flag
-/

/-- C3 (amended): `UpdateOutput` always returns with the dirty flag cleared.
`es_changed` is set to `false` immediately after the initial dirty check,
before any fallible step, and no later step restores it; in particular every
aborted or failed reconciliation attempt also ends with the flag cleared, so
the next data delivery does not retry. -/
theorem c3_amended (s : SysState) (env : Env) :
    (UpdateOutput s env).1.es_changed = false := by
  simp only [UpdateOutput]
  split
  · next h => exact h
  · split
    · rfl
    · split
      · next x heq => exact (transcodeStage_inl heq).1
      · next s1 pre tr1 heq =>
        have hs1 := (transcodeStage_inr heq).1
        split
        · exact hs1
        · split
          · exact hs1
          · split
            · rw [startSoutChain_es]; exact hs1
            · rw [startSoutChain_es]; exact hs1

/-!
### C5 — SendAction
-/

/-- C5 (amended): `SendAction` always releases the constructed action
document and the URL string, and on a failed dispatch returns null and
releases any response document — but when control-URL resolution fails it
does not skip the dispatch: `UpnpSendAction` is still invoked, with a null
control URL, and the call then returns failure provided the transport
rejects it with a non-success code. -/
theorem c5_amended (env : NetEnv) (name stype : String)
    (args : List (String × String)) :
    NetAct.freeActionDoc ∈ (SendAction env name stype args).2 ∧
    NetAct.freeURL ∈ (SendAction env name stype args).2 ∧
    (env.dispatchRet ≠ 0 →
      (SendAction env name stype args).1 = none ∧
      (env.response.isSome = true →
        NetAct.freeResponse ∈ (SendAction env name stype args).2)) ∧
    (getServiceURL env stype = none →
      NetAct.dispatch none ∈ (SendAction env name stype args).2) := by
  unfold SendAction
  by_cases hr : env.dispatchRet ≠ 0
  · rw [if_pos hr]
    exact ⟨by simp, by simp,
      fun _ => ⟨rfl, fun hresp => by simp [hresp]⟩,
      fun h => by simp [h]⟩
  · rw [if_neg hr]
    exact ⟨by simp, by simp, fun hc => absurd hc hr, fun h => by simp [h]⟩

/-- Counterexample to C5 as stated: when the device-description fetch fails,
control-URL resolution yields null, yet a dispatch of the action request is
still attempted (with a null control URL) — the claim that no dispatch is
attempted is false. -/
theorem c5_counterexample :
    getServiceURL
      { downloadOk := false, deviceList := some [], mallocOk := true,
        resolveOk := true, resolvedURL := "", dispatchRet := -1,
        response := none } "urn:svc" = none ∧
    NetAct.dispatch none ∈
      (SendAction
        { downloadOk := false, deviceList := some [], mallocOk := true,
          resolveOk := true, resolvedURL := "", dispatchRet := -1,
          response := none } "Play" "urn:svc" [("InstanceID", "0")]).2 ∧
    (SendAction
      { downloadOk := false, deviceList := some [], mallocOk := true,
        resolveOk := true, resolvedURL := "", dispatchRet := -1,
        response := none } "Play" "urn:svc" [("InstanceID", "0")]).1 =
      none := by
  refine ⟨?_, ?_, ?_⟩ <;> decide

/-- Witness for C5 (amended) at a concrete input on which every hypothesis
holds: fetch fails, dispatch reports an error, a response document exists. -/
theorem c5_witness :
    NetAct.freeActionDoc ∈
      (SendAction
        { downloadOk := false, deviceList := none, mallocOk := true,
          resolveOk := true, resolvedURL := "", dispatchRet := -2,
          response := some 3 } "Stop" "urn:svc2" [("InstanceID", "0")]).2 ∧
    NetAct.freeURL ∈
      (SendAction
        { downloadOk := false, deviceList := none, mallocOk := true,
          resolveOk := true, resolvedURL := "", dispatchRet := -2,
          response := some 3 } "Stop" "urn:svc2" [("InstanceID", "0")]).2 ∧
    (SendAction
      { downloadOk := false, deviceList := none, mallocOk := true,
        resolveOk := true, resolvedURL := "", dispatchRet := -2,
        response := some 3 } "Stop" "urn:svc2" [("InstanceID", "0")]).1 =
      none ∧
    NetAct.freeResponse ∈
      (SendAction
        { downloadOk := false, deviceList := none, mallocOk := true,
          resolveOk := true, resolvedURL := "", dispatchRet := -2,
          response := some 3 } "Stop" "urn:svc2" [("InstanceID", "0")]).2 ∧
    NetAct.dispatch none ∈
      (SendAction
        { downloadOk := false, deviceList := none, mallocOk := true,
          resolveOk := true, resolvedURL := "", dispatchRet := -2,
          response := some 3 } "Stop" "urn:svc2" [("InstanceID", "0")]).2 := by
  have c := c5_amended
    { downloadOk := false, deviceList := none, mallocOk := true,
      resolveOk := true, resolvedURL := "", dispatchRet := -2,
      response := some 3 } "Stop" "urn:svc2" [("InstanceID", "0")]
  exact ⟨c.1, c.2.1, (c.2.2.1 (by decide)).1,
    (c.2.2.1 (by decide)).2 (by decide), c.2.2.2 (by decide)⟩

/-!
### C2 — failed chain creation
-/

/-- C2 (amended): when `sout_StreamChainNew` fails during a rebuild (shown
here on the remux path), `UpdateOutput` reports `VLC_EGENERIC` and the track
registry is untouched, but the prior Pipeline Instance is *not* preserved:
`startSoutChain` first overwrites `out_streams` with the new track list and
`p_out` with the (null) result, so on return `p_out` is null and
`out_streams` is empty whatever they held before, and the old chain is never
deleted (no teardown call appears in the trace — the handle leaks). -/
theorem c2_amended (s : SysState) (env : Env) (ipaddr : String)
    (hd : s.es_changed = true)
    (hne : (classify s.b_supports_video s.streams).new_streams.isEmpty = false)
    (hcr : (classify s.b_supports_video s.streams).canRemux = true)
    (hip : env.ip = some ipaddr)
    (hao : env.asprintfOk = true)
    (hcn : env.chainNew = none) :
    (UpdateOutput s env).2.1 = VLC_EGENERIC ∧
    (UpdateOutput s env).1 =
      { s with es_changed := false, p_out := none, out_streams := [] } ∧
    Action.chainDelete ∉ (UpdateOutput s env).2.2 := by
  have h1 : ¬s.es_changed = false := by simp [hd]
  have hstage : transcodeStage { s with es_changed := false } env
      (classify s.b_supports_video s.streams) =
      Sum.inr ({ s with es_changed := false }, "", []) := by
    simp [transcodeStage, hcr]
  have hstart : ∀ d : String,
      startSoutChain { s with es_changed := false } env
        (classify s.b_supports_video s.streams).new_streams d =
      ({ s with es_changed := false, p_out := none, out_streams := [] },
        false, [Action.chainNew d]) := by
    intro d
    simp [startSoutChain, hcn]
  simp [UpdateOutput, h1, hne, hstage, hip, hao, hstart]

/-- Counterexample to C2 as stated: with a live pipeline
(`p_out = some 7`, one bound track) and a failing `sout_StreamChainNew`,
reconciliation reports an error but the prior pipeline state is modified:
`p_out` becomes null (the old chain is leaked, no teardown in the trace) and
`out_streams` is cleared. -/
theorem c2_counterexample :
    (UpdateOutput
      { p_out := some 7, es_changed := true, b_supports_video := false,
        perf_warning_shown := false, http_port := 81,
        streams := [⟨1, ⟨ESCat.audio, VLC_CODEC_MP4A⟩, some 3⟩],
        out_streams := [1] }
      { chainNew := none, idAdd := fun _ => some 20,
        showPerfWarning := false, dialogResult := 1, vcodecThrows := false,
        vcodecOption := "", tick := 0, rand := 0, ip := some "10.0.0.1",
        asprintfOk := true, stopOk := true, setUriOk := true,
        playOk := true }).2.1 = VLC_EGENERIC ∧
    (UpdateOutput
      { p_out := some 7, es_changed := true, b_supports_video := false,
        perf_warning_shown := false, http_port := 81,
        streams := [⟨1, ⟨ESCat.audio, VLC_CODEC_MP4A⟩, some 3⟩],
        out_streams := [1] }
      { chainNew := none, idAdd := fun _ => some 20,
        showPerfWarning := false, dialogResult := 1, vcodecThrows := false,
        vcodecOption := "", tick := 0, rand := 0, ip := some "10.0.0.1",
        asprintfOk := true, stopOk := true, setUriOk := true,
        playOk := true }).1.p_out = none ∧
    (UpdateOutput
      { p_out := some 7, es_changed := true, b_supports_video := false,
        perf_warning_shown := false, http_port := 81,
        streams := [⟨1, ⟨ESCat.audio, VLC_CODEC_MP4A⟩, some 3⟩],
        out_streams := [1] }
      { chainNew := none, idAdd := fun _ => some 20,
        showPerfWarning := false, dialogResult := 1, vcodecThrows := false,
        vcodecOption := "", tick := 0, rand := 0, ip := some "10.0.0.1",
        asprintfOk := true, stopOk := true, setUriOk := true,
        playOk := true }).1.out_streams = [] ∧
    Action.chainDelete ∉
      (UpdateOutput
        { p_out := some 7, es_changed := true, b_supports_video := false,
          perf_warning_shown := false, http_port := 81,
          streams := [⟨1, ⟨ESCat.audio, VLC_CODEC_MP4A⟩, some 3⟩],
          out_streams := [1] }
        { chainNew := none, idAdd := fun _ => some 20,
          showPerfWarning := false, dialogResult := 1, vcodecThrows := false,
          vcodecOption := "", tick := 0, rand := 0, ip := some "10.0.0.1",
          asprintfOk := true, stopOk := true, setUriOk := true,
          playOk := true }).2.2 := by
  refine ⟨?_, ?_, ?_, ?_⟩ <;> decide

/-- Witness for C2 (amended) at a concrete input. -/
theorem c2_witness :
    (UpdateOutput
      { p_out := some 7, es_changed := true, b_supports_video := false,
        perf_warning_shown := false, http_port := 80,
        streams := [⟨1, ⟨ESCat.audio, VLC_CODEC_MP4A⟩, some 3⟩],
        out_streams := [1] }
      { chainNew := none, idAdd := fun _ => some 20,
        showPerfWarning := false, dialogResult := 1, vcodecThrows := false,
        vcodecOption := "", tick := 0, rand := 0, ip := some "10.0.0.2",
        asprintfOk := true, stopOk := true, setUriOk := true,
        playOk := true }).2.1 = VLC_EGENERIC ∧
    (UpdateOutput
      { p_out := some 7, es_changed := true, b_supports_video := false,
        perf_warning_shown := false, http_port := 80,
        streams := [⟨1, ⟨ESCat.audio, VLC_CODEC_MP4A⟩, some 3⟩],
        out_streams := [1] }
      { chainNew := none, idAdd := fun _ => some 20,
        showPerfWarning := false, dialogResult := 1, vcodecThrows := false,
        vcodecOption := "", tick := 0, rand := 0, ip := some "10.0.0.2",
        asprintfOk := true, stopOk := true, setUriOk := true,
        playOk := true }).1 =
      { p_out := none, es_changed := false, b_supports_video := false,
        perf_warning_shown := false, http_port := 80,
        streams := [⟨1, ⟨ESCat.audio, VLC_CODEC_MP4A⟩, some 3⟩],
        out_streams := [] } ∧
    Action.chainDelete ∉
      (UpdateOutput
        { p_out := some 7, es_changed := true, b_supports_video := false,
          perf_warning_shown := false, http_port := 80,
          streams := [⟨1, ⟨ESCat.audio, VLC_CODEC_MP4A⟩, some 3⟩],
          out_streams := [1] }
        { chainNew := none, idAdd := fun _ => some 20,
          showPerfWarning := false, dialogResult := 1, vcodecThrows := false,
          vcodecOption := "", tick := 0, rand := 0, ip := some "10.0.0.2",
          asprintfOk := true, stopOk := true, setUriOk := true,
          playOk := true }).2.2 :=
  c2_amended _ _ "10.0.0.2" rfl (by decide) (by decide) rfl rfl rfl

/-!
### C6 — user-declined conversion
-/

/-- C6 (amended): when a first-time video transcode is declined in the
dialog, `UpdateOutput` stops before building any pipeline or issuing any
control action (its only external call is the dialog itself) and leaves the
state untouched except for the dirty flag — but the flag was already cleared
on entry, and the value returned is the `int` conversion of the literal
`false`, which is `0`, i.e. `VLC_SUCCESS`: the caller cannot distinguish the
cancellation from a successful reconciliation. -/
theorem c6_amended (s : SysState) (env : Env)
    (hd : s.es_changed = true)
    (hpw : s.perf_warning_shown = false)
    (hne : (classify s.b_supports_video s.streams).new_streams.isEmpty = false)
    (hcr : (classify s.b_supports_video s.streams).canRemux = false)
    (hv0 : (classify s.b_supports_video s.streams).i_codec_video = 0)
    (hov : (classify s.b_supports_video s.streams).orig_video.isSome = true)
    (hsw : env.showPerfWarning = true)
    (hdr : env.dialogResult ≤ 0) :
    UpdateOutput s env =
      ({ s with es_changed := false }, VLC_SUCCESS, [Action.dialogShown]) := by
  have h1 : ¬s.es_changed = false := by simp [hd]
  have hstage : transcodeStage { s with es_changed := false } env
      (classify s.b_supports_video s.streams) =
      Sum.inl ({ s with es_changed := false }, boolToCInt false,
        [Action.dialogShown]) := by
    simp [transcodeStage, hcr, hpw, hv0, hov, hsw, hdr]
  have hres : boolToCInt false = VLC_SUCCESS := rfl
  simp [UpdateOutput, h1, hne, hstage, hres]

/-- Counterexample to C6 as stated: on a declined first-time video
transcode, `UpdateOutput` returns the integer conversion of `false`, which
equals `VLC_SUCCESS` — not a result distinct from success — and the dirty
flag does not stay set (it was cleared at the start of the attempt). -/
theorem c6_counterexample :
    (UpdateOutput
      { p_out := none, es_changed := true, b_supports_video := true,
        perf_warning_shown := false, http_port := 80,
        streams := [⟨1, ⟨ESCat.video, 999⟩, none⟩], out_streams := [] }
      { chainNew := some 10, idAdd := fun _ => some 20,
        showPerfWarning := true, dialogResult := 0, vcodecThrows := false,
        vcodecOption := "", tick := 0, rand := 0, ip := some "1.2.3.4",
        asprintfOk := true, stopOk := true, setUriOk := true,
        playOk := true }).2.1 = VLC_SUCCESS ∧
    (UpdateOutput
      { p_out := none, es_changed := true, b_supports_video := true,
        perf_warning_shown := false, http_port := 80,
        streams := [⟨1, ⟨ESCat.video, 999⟩, none⟩], out_streams := [] }
      { chainNew := some 10, idAdd := fun _ => some 20,
        showPerfWarning := true, dialogResult := 0, vcodecThrows := false,
        vcodecOption := "", tick := 0, rand := 0, ip := some "1.2.3.4",
        asprintfOk := true, stopOk := true, setUriOk := true,
        playOk := true }).1.es_changed = false := by
  exact ⟨by decide, by decide⟩

/-- Witness for C6 (amended) at a concrete input. -/
theorem c6_witness :
    UpdateOutput
      { p_out := none, es_changed := true, b_supports_video := true,
        perf_warning_shown := false, http_port := 90,
        streams := [⟨2, ⟨ESCat.video, 777⟩, none⟩], out_streams := [] }
      { chainNew := some 10, idAdd := fun _ => some 20,
        showPerfWarning := true, dialogResult := 0, vcodecThrows := false,
        vcodecOption := "", tick := 0, rand := 0, ip := some "1.2.3.4",
        asprintfOk := true, stopOk := true, setUriOk := true,
        playOk := true } =
    ({ p_out := none, es_changed := false, b_supports_video := true,
        perf_warning_shown := false, http_port := 90,
        streams := [⟨2, ⟨ESCat.video, 777⟩, none⟩], out_streams := [] },
      VLC_SUCCESS, [Action.dialogShown]) :=
  c6_amended _ _ rfl rfl (by decide) (by decide) (by decide) (by decide)
    rfl (by decide)

/-!
### C1 — control-action step
-/

theorem UpdateOutput_setURI (s : SysState) (env : Env) :
    (∀ u b, Action.rendererSetURI u b ∉ (UpdateOutput s env).2.2) ∨
    ((UpdateOutput s env).2.1 = VLC_SUCCESS ∧
      Action.rendererPlay "1" env.playOk ∈ (UpdateOutput s env).2.2) := by
  simp only [UpdateOutput]
  split
  · exact Or.inl (by intro u b hu; cases hu)
  · split
    · exact Or.inl (by intro u b hu; cases hu)
    · split
      · next x heq =>
        left
        intro u b hu
        rcases (transcodeStage_inl heq).2.2.2.2 with htr | htr | htr <;>
          rw [htr] at hu <;> simp at hu
      · next s1 pre tr1 heq =>
        have htr1 : tr1 = [] ∨ tr1 = [Action.dialogShown] ∨
            tr1 = [Action.dialogShown, Action.configPutSkipWarning] :=
          (transcodeStage_inr heq).2.2.2.2.2.2
        split
        · left
          intro u b hu
          rcases htr1 with htr | htr | htr <;> rw [htr] at hu <;> simp at hu
        · split
          · left
            intro u b hu
            rcases htr1 with htr | htr | htr <;> rw [htr] at hu <;> simp at hu
          · split
            · left
              intro u b hu
              rcases List.mem_append.1 hu with hu | hu
              · rcases htr1 with htr | htr | htr <;> rw [htr] at hu <;>
                  simp at hu
              · rcases startSoutChain_trace hu with ⟨d2, hc⟩ | ⟨hh, hc⟩ |
                  ⟨hh, hc⟩ | ⟨k, hc⟩ | hc <;> cases hc
            · right
              exact ⟨rfl, by simp⟩

/-- C1 (amended): the results of the three control actions `Stop`,
`SetCurrentURI`, `Play` are discarded by `UpdateOutput`.  Whenever a
`SetCurrentURI` action appears in its trace — in particular a failed one —
a `Play` action appears as well and `UpdateOutput` reports `VLC_SUCCESS`;
a control-action failure is never reported to the caller. -/
theorem c1_amended (s : SysState) (env : Env) (u : String) (b : Bool)
    (h : Action.rendererSetURI u b ∈ (UpdateOutput s env).2.2) :
    Action.rendererPlay "1" env.playOk ∈ (UpdateOutput s env).2.2 ∧
    (UpdateOutput s env).2.1 = VLC_SUCCESS := by
  rcases UpdateOutput_setURI s env with hn | hy
  · exact absurd h (hn u b)
  · exact ⟨hy.2, hy.1⟩

/-- Counterexample to C1 as stated: a concrete run in which `SetCurrentURI`
fails (the environment reports `false` for it) yet `Play` is still invoked
afterwards and `UpdateOutput` returns `VLC_SUCCESS` instead of an error. -/
theorem c1_counterexample :
    Action.rendererSetURI "http://5.6.7.8:8080/dlna/3/4/stream" false ∈
      (UpdateOutput
        { p_out := none, es_changed := true, b_supports_video := false,
          perf_warning_shown := false, http_port := 8080,
          streams := [⟨1, ⟨ESCat.audio, VLC_CODEC_MP4A⟩, none⟩],
          out_streams := [] }
        { chainNew := some 10, idAdd := fun _ => some 20,
          showPerfWarning := false, dialogResult := 1, vcodecThrows := false,
          vcodecOption := "", tick := 3, rand := 4, ip := some "5.6.7.8",
          asprintfOk := true, stopOk := true, setUriOk := false,
          playOk := true }).2.2 ∧
    Action.rendererPlay "1" true ∈
      (UpdateOutput
        { p_out := none, es_changed := true, b_supports_video := false,
          perf_warning_shown := false, http_port := 8080,
          streams := [⟨1, ⟨ESCat.audio, VLC_CODEC_MP4A⟩, none⟩],
          out_streams := [] }
        { chainNew := some 10, idAdd := fun _ => some 20,
          showPerfWarning := false, dialogResult := 1, vcodecThrows := false,
          vcodecOption := "", tick := 3, rand := 4, ip := some "5.6.7.8",
          asprintfOk := true, stopOk := true, setUriOk := false,
          playOk := true }).2.2 ∧
    (UpdateOutput
        { p_out := none, es_changed := true, b_supports_video := false,
          perf_warning_shown := false, http_port := 8080,
          streams := [⟨1, ⟨ESCat.audio, VLC_CODEC_MP4A⟩, none⟩],
          out_streams := [] }
        { chainNew := some 10, idAdd := fun _ => some 20,
          showPerfWarning := false, dialogResult := 1, vcodecThrows := false,
          vcodecOption := "", tick := 3, rand := 4, ip := some "5.6.7.8",
          asprintfOk := true, stopOk := true, setUriOk := false,
          playOk := true }).2.1 = VLC_SUCCESS := by
  refine ⟨?_, ?_, ?_⟩ <;> decide

/-- Witness for C1 (amended) at a concrete input where `SetCurrentURI`
fails. -/
theorem c1_witness :
    Action.rendererPlay "1" true ∈
      (UpdateOutput
        { p_out := none, es_changed := true, b_supports_video := false,
          perf_warning_shown := false, http_port := 80,
          streams := [⟨1, ⟨ESCat.audio, VLC_CODEC_MP4A⟩, none⟩],
          out_streams := [] }
        { chainNew := some 10, idAdd := fun _ => some 20,
          showPerfWarning := false, dialogResult := 1, vcodecThrows := false,
          vcodecOption := "", tick := 0, rand := 0, ip := some "1.2.3.4",
          asprintfOk := true, stopOk := true, setUriOk := false,
          playOk := true }).2.2 ∧
    (UpdateOutput
        { p_out := none, es_changed := true, b_supports_video := false,
          perf_warning_shown := false, http_port := 80,
          streams := [⟨1, ⟨ESCat.audio, VLC_CODEC_MP4A⟩, none⟩],
          out_streams := [] }
        { chainNew := some 10, idAdd := fun _ => some 20,
          showPerfWarning := false, dialogResult := 1, vcodecThrows := false,
          vcodecOption := "", tick := 0, rand := 0, ip := some "1.2.3.4",
          asprintfOk := true, stopOk := true, setUriOk := false,
          playOk := true }).2.1 = VLC_SUCCESS :=
  c1_amended _ _ "http://1.2.3.4:80/dlna/0/0/stream" false (by decide)

/-!
### C8 — Flush
-/

/-- C8 (amended): `Flush` flushes the sink and then tears down the whole
pipeline and sets the dirty flag only when the flushed track is currently
bound (its `GetSubId` lookup yields a sink); when the track has no live
binding, `Flush` returns immediately with no state change and no external
call — the teardown is conditional, not unconditional. -/
theorem c8_amended (s : SysState) (id : Nat) :
    (lookupSub s id = none → Flush s id = (s, [])) ∧
    (∀ k, lookupSub s id = some k →
      (Flush s id).1.es_changed = true ∧ (Flush s id).1.p_out = none ∧
      (Flush s id).1.out_streams = [] ∧
      (Flush s id).2 = Action.streamFlush k :: (stopSoutChain s).2) := by
  constructor
  · intro h
    simp [Flush, h]
  · intro k h
    simp [Flush, h, stopSoutChain]

/-- Counterexample to C8 as stated: flushing a track with no live binding
(handle 3 is not in `out_streams`) leaves the pipeline standing
(`p_out` still `some 1`) and the dirty flag clear — no unconditional
teardown takes place. -/
theorem c8_counterexample :
    Flush
      { p_out := some 1, es_changed := false, b_supports_video := false,
        perf_warning_shown := false, http_port := 80,
        streams := [⟨2, ⟨ESCat.audio, VLC_CODEC_MP4A⟩, some 9⟩],
        out_streams := [2] } 3 =
      ({ p_out := some 1, es_changed := false, b_supports_video := false,
         perf_warning_shown := false, http_port := 80,
         streams := [⟨2, ⟨ESCat.audio, VLC_CODEC_MP4A⟩, some 9⟩],
         out_streams := [2] }, []) ∧
    (Flush
      { p_out := some 1, es_changed := false, b_supports_video := false,
        perf_warning_shown := false, http_port := 80,
        streams := [⟨2, ⟨ESCat.audio, VLC_CODEC_MP4A⟩, some 9⟩],
        out_streams := [2] } 3).1.p_out ≠ none ∧
    (Flush
      { p_out := some 1, es_changed := false, b_supports_video := false,
        perf_warning_shown := false, http_port := 80,
        streams := [⟨2, ⟨ESCat.audio, VLC_CODEC_MP4A⟩, some 9⟩],
        out_streams := [2] } 3).1.es_changed = false := by
  refine ⟨?_, ?_, ?_⟩ <;> decide

/-- Witness for C8 (amended), bound case, at a concrete input. -/
theorem c8_witness :
    (Flush
      { p_out := some 1, es_changed := false, b_supports_video := false,
        perf_warning_shown := false, http_port := 80,
        streams := [⟨2, ⟨ESCat.audio, VLC_CODEC_MP4A⟩, some 9⟩],
        out_streams := [2] } 2).1.es_changed = true ∧
    (Flush
      { p_out := some 1, es_changed := false, b_supports_video := false,
        perf_warning_shown := false, http_port := 80,
        streams := [⟨2, ⟨ESCat.audio, VLC_CODEC_MP4A⟩, some 9⟩],
        out_streams := [2] } 2).1.p_out = none ∧
    (Flush
      { p_out := some 1, es_changed := false, b_supports_video := false,
        perf_warning_shown := false, http_port := 80,
        streams := [⟨2, ⟨ESCat.audio, VLC_CODEC_MP4A⟩, some 9⟩],
        out_streams := [2] } 2).1.out_streams = [] ∧
    (Flush
      { p_out := some 1, es_changed := false, b_supports_video := false,
        perf_warning_shown := false, http_port := 80,
        streams := [⟨2, ⟨ESCat.audio, VLC_CODEC_MP4A⟩, some 9⟩],
        out_streams := [2] } 2).2 =
      Action.streamFlush 9 :: (stopSoutChain
        { p_out := some 1, es_changed := false, b_supports_video := false,
          perf_warning_shown := false, http_port := 80,
          streams := [⟨2, ⟨ESCat.audio, VLC_CODEC_MP4A⟩, some 9⟩],
          out_streams := [2] }).2 :=
  (c8_amended _ 2).2 9 (by decide)

/-!
### C9 / C10 — Del
-/

theorem chainDelete_mem_stopSoutChain (s : SysState) :
    Action.chainDelete ∈ (stopSoutChain s).2 := by
  simp [stopSoutChain]

theorem delFinal_stop (s2 : SysState) (ok : Bool) (tr : List Action)
    (h : (delFinal s2 ok tr).1.out_streams = []) :
    Action.rendererStop ok ∈ (delFinal s2 ok tr).2 ∧
    Action.chainDelete ∈ (delFinal s2 ok tr).2 := by
  unfold delFinal at h ⊢
  by_cases he : s2.out_streams.isEmpty = true
  · rw [if_pos he]
    constructor
    · simp
    · simp only [List.mem_append]
      exact Or.inl (Or.inr (chainDelete_mem_stopSoutChain s2))
  · rw [if_neg he] at h
    dsimp at h
    rw [h] at he
    simp at he

/-- C9: removing the last bound track through `Del` tears the pipeline down
(`p_out` nulled, `out_streams` emptied, the chain deleted) and sends `Stop`
to the renderer, and no `SetCurrentURI` or `Play` control action is issued
during the removal. -/
theorem c9_last_track_stop (s : SysState) (ok : Bool) (id k : Nat)
    (r : TrackRec) (hout : s.out_streams = [id])
    (hfind : s.streams.find? (fun t => t.handle == id) = some r)
    (hsub : r.sub_id = some k) :
    (Del s ok id).1.p_out = none ∧ (Del s ok id).1.out_streams = [] ∧
    Action.rendererStop ok ∈ (Del s ok id).2 ∧
    Action.chainDelete ∈ (Del s ok id).2 ∧
    (∀ u b2, Action.rendererSetURI u b2 ∉ (Del s ok id).2) ∧
    (∀ sp b2, Action.rendererPlay sp b2 ∉ (Del s ok id).2) := by
  simp [Del, hfind, hsub, hout, removeFirstHandle, delFinal, stopSoutChain,
    stopChainLoop]

/-- Witness for C9 at a concrete input. -/
theorem c9_witness :
    (Del
      { p_out := some 5, es_changed := false, b_supports_video := false,
        perf_warning_shown := false, http_port := 80,
        streams := [⟨4, ⟨ESCat.audio, VLC_CODEC_MP4A⟩, some 6⟩],
        out_streams := [4] } true 4).1.p_out = none ∧
    (Del
      { p_out := some 5, es_changed := false, b_supports_video := false,
        perf_warning_shown := false, http_port := 80,
        streams := [⟨4, ⟨ESCat.audio, VLC_CODEC_MP4A⟩, some 6⟩],
        out_streams := [4] } true 4).1.out_streams = [] ∧
    Action.rendererStop true ∈
      (Del
        { p_out := some 5, es_changed := false, b_supports_video := false,
          perf_warning_shown := false, http_port := 80,
          streams := [⟨4, ⟨ESCat.audio, VLC_CODEC_MP4A⟩, some 6⟩],
          out_streams := [4] } true 4).2 ∧
    Action.chainDelete ∈
      (Del
        { p_out := some 5, es_changed := false, b_supports_video := false,
          perf_warning_shown := false, http_port := 80,
          streams := [⟨4, ⟨ESCat.audio, VLC_CODEC_MP4A⟩, some 6⟩],
          out_streams := [4] } true 4).2 ∧
    (∀ u b2, Action.rendererSetURI u b2 ∉
      (Del
        { p_out := some 5, es_changed := false, b_supports_video := false,
          perf_warning_shown := false, http_port := 80,
          streams := [⟨4, ⟨ESCat.audio, VLC_CODEC_MP4A⟩, some 6⟩],
          out_streams := [4] } true 4).2) ∧
    (∀ sp b2, Action.rendererPlay sp b2 ∉
      (Del
        { p_out := some 5, es_changed := false, b_supports_video := false,
          perf_warning_shown := false, http_port := 80,
          streams := [⟨4, ⟨ESCat.audio, VLC_CODEC_MP4A⟩, some 6⟩],
          out_streams := [4] } true 4).2) :=
  c9_last_track_stop _ true 4 6 ⟨4, ⟨ESCat.audio, VLC_CODEC_MP4A⟩, some 6⟩
    rfl (by decide) rfl

/-- C10: every `Del` call that ends with an empty `out_streams` — the
removed track never bound, the handle unknown, or no pipeline ever built —
still runs the chain-teardown routine and sends `Stop` to the renderer. -/
theorem c10_del_empty_stops (s : SysState) (ok : Bool) (id : Nat)
    (h : (Del s ok id).1.out_streams = []) :
    Action.rendererStop ok ∈ (Del s ok id).2 ∧
    Action.chainDelete ∈ (Del s ok id).2 := by
  unfold Del at h ⊢
  revert h
  cases hf : s.streams.find? (fun r => r.handle == id) with
  | none => exact fun h => delFinal_stop _ _ _ h
  | some r => exact fun h => delFinal_stop _ _ _ h

/-- Witness for C10: `Del` on a session with no tracks at all (handle not in
the registry, no pipeline ever built) still deletes the chain and sends
`Stop`. -/
theorem c10_witness :
    Action.rendererStop true ∈
      (Del
        { p_out := none, es_changed := false, b_supports_video := false,
          perf_warning_shown := false, http_port := 80, streams := [],
          out_streams := [] } true 0).2 ∧
    Action.chainDelete ∈
      (Del
        { p_out := none, es_changed := false, b_supports_video := false,
          perf_warning_shown := false, http_port := 80, streams := [],
          out_streams := [] } true 0).2 :=
  c10_del_empty_stops _ true 0 (by decide)

/-- Counterexample to C3 as stated: a failed reconciliation attempt (the
local IP cannot be determined, so `UpdateOutput` returns `VLC_EGENERIC`)
nevertheless ends with the dirty flag cleared, so the next data delivery
does not retry. -/
theorem c3_counterexample :
    (UpdateOutput
      { p_out := none, es_changed := true, b_supports_video := false,
        perf_warning_shown := false, http_port := 80,
        streams := [⟨1, ⟨ESCat.audio, VLC_CODEC_MP4A⟩, none⟩],
        out_streams := [] }
      { chainNew := some 10, idAdd := fun _ => some 20,
        showPerfWarning := false, dialogResult := 1, vcodecThrows := false,
        vcodecOption := "", tick := 0, rand := 0, ip := none,
        asprintfOk := true, stopOk := true, setUriOk := true,
        playOk := true }).2.1 = VLC_EGENERIC ∧
    (UpdateOutput
      { p_out := none, es_changed := true, b_supports_video := false,
        perf_warning_shown := false, http_port := 80,
        streams := [⟨1, ⟨ESCat.audio, VLC_CODEC_MP4A⟩, none⟩],
        out_streams := [] }
      { chainNew := some 10, idAdd := fun _ => some 20,
        showPerfWarning := false, dialogResult := 1, vcodecThrows := false,
        vcodecOption := "", tick := 0, rand := 0, ip := none,
        asprintfOk := true, stopOk := true, setUriOk := true,
        playOk := true }).1.es_changed = false := by
  constructor <;> rfl

end DLNA
